import Mathlib

/-!
Shallow embedding of the cycle-graph assembly code of the
aircraft-data-hierarchy repository: the `HBTFBuilder` pyCycle builder
(`performanceUtils/propulsion/hbtf_builder.py`), the multi-point builder
`MPhbtf` (`performanceUtils/propulsion/propulsion_performance_builder.py`),
and the pydantic validators of `PropulsionCycle`
(`work_breakdown_structure/propulsion/propulsion_cycle.py`).

Element data records carry exactly the dictionary keys the builder reads.
The OpenMDAO model being assembled is embedded as a `Model` record that
accumulates subsystems, plain connections (`self.connect`), promoted
balance inputs (`self.promotes`), balance declarations
(`balance.add_balance`), flow edges (`pyc_connect_flow`) and bleed edges.
-/

namespace ADH

/-- One entry of the compressor dictionary built by `getCompressor`
(fields the builder reads: name, map_data, bleed_names, map_extrap). -/
structure CompData where
  name : String
  map_data : String
  bleed_names : List String
  map_extrap : Bool
deriving Repr, DecidableEq

/-- One entry of the turbine dictionary built by `getTurbine`. -/
structure TurbData where
  name : String
  map_data : String
  bleed_names : List String
  map_extrap : Bool
deriving Repr, DecidableEq

/-- One entry of the combustor dictionary built by `getCombustor`. -/
structure CombData where
  name : String
  fuel_type : String
deriving Repr, DecidableEq

/-- One entry of the shaft dictionary built by `getShaft`. -/
structure ShaftData where
  name : String
  num_ports : Nat
  nmech_type : String
deriving Repr, DecidableEq

/-- One entry of the bleed-element dictionary built by `getBleed`. -/
structure BleedData where
  name : String
  bleed_names : List String
deriving Repr, DecidableEq

/-- One entry of the nozzle dictionary built by `getNozzle`. -/
structure NozzData where
  name : String
  nozz_type : String
  loss_coef : String
deriving Repr, DecidableEq

/-- A flight-condition, inlet, splitter or duct entry: the builder only
reads its name. -/
structure NamedData where
  name : String
deriving Repr, DecidableEq

/-- One entry of the performance dictionary read by `add_perfomance`. -/
structure PerfData where
  name : String
  pt2_source : String
  ram_drag_source : String
  pt3_source : String
  wfuel_0_source : String
  fg_0_source : String
  fg_1_source : String
deriving Repr, DecidableEq

/-- The `cycleInfo` dictionary built by `getCycleInfo`. -/
structure CycleInfo where
  name : String
  design : Bool
  thermo_method : String
  throttle_mode : String
  global_connections : List String
  flow_connections : List (List String)
deriving Repr, DecidableEq

/-- The full `cycleData` dictionary handed to `HBTFBuilder.setup`. -/
structure CycleData where
  cycleInfo : CycleInfo
  fc : List NamedData
  inlets : List NamedData
  splitters : List NamedData
  duct : List NamedData
  comp : List CompData
  comb : List CombData
  turb : List TurbData
  nozz : List NozzData
  shafts : List ShaftData
  bleeds : List BleedData
  perf : List PerfData
deriving Repr, DecidableEq

/-- One `balance.add_balance(...)` declaration: keyword arguments as they
appear at the call sites in `HBTFBuilder.setup`. -/
structure Balance where
  name : String
  units : Option String := none
  eqUnits : Option String := none
  lower : Option ℚ := none
  upper : Option ℚ := none
  val : Option ℚ := none
  useMult : Bool := false
  multVal : Option ℚ := none
deriving Repr, DecidableEq

/-- The OpenMDAO model state accumulated by `HBTFBuilder.setup`. -/
structure Model where
  thermoMethod : String := ""
  thermoData : String := ""
  subsystems : List (String × String) := []
  connections : List (String × String) := []
  promotes : List (String × String) := []
  balances : List Balance := []
  order : List String := []
  flowEdges : List (String × String) := []
  bleedEdges : List (String × String) := []
deriving Repr, DecidableEq

/-- `self.add_subsystem(name, spec, ...)`. -/
def Model.addSubsystem (m : Model) (n spec : String) : Model :=
  { m with subsystems := m.subsystems ++ [(n, spec)] }

/-- `self.connect(src, tgt)`. -/
def Model.conn (m : Model) (src tgt : String) : Model :=
  { m with connections := m.connections ++ [(src, tgt)] }

/-- `self.promotes("balance", inputs=[(internal, external)])`, and the
per-subsystem `promotes_inputs` of the add helpers. -/
def Model.promote (m : Model) (internal external : String) : Model :=
  { m with promotes := m.promotes ++ [(internal, external)] }

/-- `balance.add_balance(...)`. -/
def Model.addBalance (m : Model) (b : Balance) : Model :=
  { m with balances := m.balances ++ [b] }

/-- The map-class / promoted-Nmech selection of `add_compressors`
(lines 26-37): `FanMap` and `LPCMap` promote to `LP_Nmech`, `HPCMap`
promotes to `HP_Nmech`, and the `else` branch silently defaults to
`HPCMap` / `HP_Nmech` (source comment: "TODO: Filter out case in ADH"). -/
def compressorMapSel (map_data : String) : String × String :=
  if map_data = "FanMap" then ("FanMap", "LP_Nmech")
  else if map_data = "LPCMap" then ("LPCMap", "LP_Nmech")
  else if map_data = "HPCMap" then ("HPCMap", "HP_Nmech")
  else ("HPCMap", "HP_Nmech")

/-- The map-class / promoted-Nmech selection of `add_turbines`
(lines 46-54): `LPTMap` promotes to `LP_Nmech`, `HPTMap` to `HP_Nmech`,
and the `else` branch silently defaults to `HPTMap` / `HP_Nmech`. -/
def turbineMapSel (map_data : String) : String × String :=
  if map_data = "LPTMap" then ("LPTMap", "LP_Nmech")
  else if map_data = "HPTMap" then ("HPTMap", "HP_Nmech")
  else ("HPTMap", "HP_Nmech")

/-- `HBTFBuilder.add_compressors`: one `pyc.Compressor` subsystem per
entry, with its `Nmech` input promoted to the selected spool speed. -/
def add_compressors (m : Model) (compressors : List CompData) : Model :=
  { m with
    subsystems := m.subsystems ++ compressors.map
      (fun c => (c.name, "Compressor(" ++ (compressorMapSel c.map_data).1 ++ ")"))
    promotes := m.promotes ++ compressors.map
      (fun c => (c.name ++ ".Nmech", (compressorMapSel c.map_data).2)) }

/-- `HBTFBuilder.add_turbines`: one `pyc.Turbine` subsystem per entry,
with its `Nmech` input promoted to the selected spool speed. -/
def add_turbines (m : Model) (turbines : List TurbData) : Model :=
  { m with
    subsystems := m.subsystems ++ turbines.map
      (fun t => (t.name, "Turbine(" ++ (turbineMapSel t.map_data).1 ++ ")"))
    promotes := m.promotes ++ turbines.map
      (fun t => (t.name ++ ".Nmech", (turbineMapSel t.map_data).2)) }

/-- `HBTFBuilder.add_combustors`. -/
def add_combustors (m : Model) (combustors : List CombData) : Model :=
  { m with subsystems := m.subsystems ++
      combustors.map (fun c => (c.name, "Combustor(" ++ c.fuel_type ++ ")")) }

/-- `HBTFBuilder.add_shafts`: each shaft's `Nmech` input promoted to
`{nmech_type}_Nmech`. -/
def add_shafts (m : Model) (shafts : List ShaftData) : Model :=
  { m with
    subsystems := m.subsystems ++ shafts.map
      (fun s => (s.name, "Shaft(" ++ toString s.num_ports ++ ")"))
    promotes := m.promotes ++ shafts.map
      (fun s => (s.name ++ ".Nmech", s.nmech_type ++ "_Nmech")) }

/-- `HBTFBuilder.add_bleeds`. -/
def add_bleeds (m : Model) (bleeds : List BleedData) : Model :=
  { m with subsystems := m.subsystems ++ bleeds.map (fun b => (b.name, "BleedOut")) }

/-- `HBTFBuilder.add_flightconditions`. -/
def add_flightconditions (m : Model) (fcs : List NamedData) : Model :=
  { m with subsystems := m.subsystems ++ fcs.map (fun f => (f.name, "FlightConditions")) }

/-- `HBTFBuilder.add_inlets`. -/
def add_inlets (m : Model) (inlets : List NamedData) : Model :=
  { m with subsystems := m.subsystems ++ inlets.map (fun i => (i.name, "Inlet")) }

/-- `HBTFBuilder.add_splitters`. -/
def add_splitters (m : Model) (splitters : List NamedData) : Model :=
  { m with subsystems := m.subsystems ++ splitters.map (fun s => (s.name, "Splitter")) }

/-- `HBTFBuilder.add_ducts`. -/
def add_ducts (m : Model) (ducts : List NamedData) : Model :=
  { m with subsystems := m.subsystems ++ ducts.map (fun d => (d.name, "Duct")) }

/-- `HBTFBuilder.add_nozzles`. -/
def add_nozzles (m : Model) (nozzles : List NozzData) : Model :=
  { m with subsystems := m.subsystems ++
      nozzles.map (fun n => (n.name, "Nozzle(" ++ n.nozz_type ++ "," ++ n.loss_coef ++ ")")) }

/-- The six `self.connect` calls `add_perfomance` issues per performance
entry (lines 120-129). -/
def perfConnectionsOf (p : PerfData) : List (String × String) :=
  [(p.pt2_source ++ ".Fl_O:tot:P", p.name ++ ".Pt2"),
   (p.ram_drag_source ++ ".F_ram", p.name ++ ".ram_drag"),
   (p.pt3_source ++ ".Fl_O:tot:P", p.name ++ ".Pt3"),
   (p.wfuel_0_source ++ ".Wfuel", p.name ++ ".Wfuel_0"),
   (p.fg_0_source ++ ".Fg", p.name ++ ".Fg_0"),
   (p.fg_1_source ++ ".Fg", p.name ++ ".Fg_1")]

/-- `HBTFBuilder.add_perfomance`: a `pyc.Performance` subsystem sized by
the nozzle and burner counts, plus its six connections. -/
def add_perfomance (m : Model) (cd : CycleData) : Model :=
  { m with
    subsystems := m.subsystems ++ cd.perf.map
      (fun p => (p.name,
        "Performance(" ++ toString cd.nozz.length ++ "," ++ toString cd.comb.length ++ ")"))
    connections := m.connections ++ cd.perf.flatMap perfConnectionsOf }

/-- `HBTFBuilder.connect_flow`: each flow-connection list of length > 2
uses its third entry as the outlet suffix (`{src}.Fl_O{idx}`), a pair
uses the primary outlet `{src}.Fl_O`; both target `{dst}.Fl_I`. -/
def connect_flow_fn (flow_connections : List (List String)) :
    List (String × String) :=
  flow_connections.filterMap fun fc =>
    match fc with
    | a :: b :: c :: _ => some (a ++ ".Fl_O" ++ c, b ++ ".Fl_I")
    | [a, b] => some (a ++ ".Fl_O", b ++ ".Fl_I")
    | _ => none

/-- Python-dict assignment `d[k] = v` on an insertion-ordered
association list: an existing key keeps its position and gets the new
value, a new key is appended. -/
def dictInsert (d : List (String × List String)) (kv : String × List String) :
    List (String × List String) :=
  if d.any (fun p => p.1 = kv.1) then
    d.map (fun p => if p.1 = kv.1 then kv else p)
  else d ++ [kv]

/-- The (name, bleed_names) pairs inserted into the `bleedPairs` dict by
`connect_bleeds`, in source insertion order: compressors first, then
Bleed elements, then turbines (lines 152-157). -/
def allBleedPairsList (cd : CycleData) : List (String × List String) :=
  cd.comp.map (fun c => (c.name, c.bleed_names)) ++
  cd.bleeds.map (fun b => (b.name, b.bleed_names)) ++
  cd.turb.map (fun t => (t.name, t.bleed_names))

/-- The `bleedPairs` dict of `connect_bleeds`. -/
def bleedPairs (cd : CycleData) : List (String × List String) :=
  (allBleedPairsList cd).foldl dictInsert []

/-- `cWB`: the dict keys whose bleed-name list contains `bn`, in dict
order (line 161). -/
def ownersOf (cd : CycleData) (bn : String) : List String :=
  (bleedPairs cd).filterMap (fun p => if bn ∈ p.2 then some p.1 else none)

/-- The connection `connect_bleeds` makes for one bleed name: when at
least two dict entries declare the name, the first two are connected
(`cWB[0]` to `cWB[1]`, line 163); otherwise nothing happens. -/
def bleedEdgeFor (pairs : List (String × List String)) (bn : String) :
    Option (String × String) :=
  match pairs.filterMap (fun p => if bn ∈ p.2 then some p.1 else none) with
  | a :: b :: _ => some (a ++ "." ++ bn, b ++ "." ++ bn)
  | _ => none

/-- The union of all declared bleed names (the `set(...)` of lines
144-148), in first-occurrence order of the source concatenation
compressors, turbines, Bleed elements. -/
def bleedNamesList (cd : CycleData) : List String :=
  (cd.comp.flatMap (fun c => c.bleed_names) ++
   cd.turb.flatMap (fun t => t.bleed_names) ++
   cd.bleeds.flatMap (fun b => b.bleed_names)).eraseDups

/-- `connect_bleeds` run over a given enumeration order of the bleed-name
set (Python iterates a hash set, whose order is arbitrary). -/
def connectBleedsOrdered (cd : CycleData) (ns : List String) :
    List (String × String) :=
  ns.filterMap (bleedEdgeFor (bleedPairs cd))

/-- `HBTFBuilder.connect_bleeds`: edges for every distinct declared bleed
name. -/
def connect_bleeds_fn (cd : CycleData) : List (String × String) :=
  connectBleedsOrdered cd (bleedNamesList cd)

/-- `HBTFBuilder.connect_compturb_to_shafts`: for each shaft, the entries
of `compturb` whose `"{name},{shaft}"` string appears in the global
connection list get consecutive torque ports `trq_0`, `trq_1`, ... in
list order. -/
def connect_compturb_fn (compturb : List CompData) (shafts : List ShaftData)
    (gc : List String) : List (String × String) :=
  shafts.flatMap fun sh =>
    ((compturb.filter (fun c => (c.name ++ "," ++ sh.name) ∈ gc)).enum).map
      (fun p => (p.2.name ++ ".trq", sh.name ++ ".trq_" ++ toString p.1))

/-- `HBTFBuilder.connect_nozz_to_fc`: every nozzle's exhaust static
pressure is fed from each flight condition. -/
def connect_nozz_fc_fn (nozzles : List NozzData) (fcs : List NamedData) :
    List (String × String) :=
  fcs.flatMap fun f =>
    nozzles.map (fun n => (f.name ++ ".Fl_O:stat:P", n.name ++ ".Ps_exhaust"))

end ADH

namespace ADH

/-- The allowed values of the `throttle_mode` option declared by
`HBTFBuilder.initialize` (line 190). -/
def throttleModeValues : List String := ["T4", "percent_thrust"]

/-- The pydantic `field_validator` `PropulsionCycle.validate_throttle_mode`
(propulsion_cycle.py lines 374-379): the allowed list there is
`["T4", "percent_throttle"]`. -/
def validate_throttle_mode (v : String) : Except String String :=
  if v ∈ ["T4", "percent_throttle"] then Except.ok v
  else Except.error "Throttle mode must be one of ['T4', 'percent_throttle']"

/-- The pydantic `field_validator` `PropulsionCycle.validate_thermo_method`. -/
def validate_thermo_method (v : String) : Except String String :=
  if v ∈ ["CEA", "TABULAR"] then Except.ok v
  else Except.error "Thermodynamic method must be one of ['CEA', 'TABULAR']"

/-- The pydantic `field_validator` `PropulsionCycle.validate_fuel_type`. -/
def validate_fuel_type (v : String) : Except String String :=
  if v ∈ ["FAR", "Jet-A(g)"] then Except.ok v
  else Except.error "Fuel type must be one of ['FAR', 'Jet-A(g)']"

/-- The thermo-package selection at the top of `HBTFBuilder.setup`
(lines 200-205): exactly the string `TABULAR` selects the tabular
package, any other value selects CEA with the janaf data; no check, no
error path. -/
def thermoSelect (thermo_method : String) : String × String :=
  if thermo_method = "TABULAR" then ("TABULAR", "AIR_JETA_TAB_SPEC")
  else ("CEA", "species_data.janaf")

/-- The initial model state of `setup`: thermo options set, everything
else empty. -/
def initModel (cd : CycleData) : Model :=
  { thermoMethod := (thermoSelect cd.cycleInfo.thermo_method).1
    thermoData := (thermoSelect cd.cycleInfo.thermo_method).2 }

/-- The element/connection phase of `setup` (lines 209-229): all add
helpers in source order, the performance component, the
turbomachinery-to-shaft connections (note: `setup` passes only
`cycleData["comp"]`, line 225), the nozzle back-pressure couplings, and
the `balance` subsystem (line 245). -/
def addElements (cd : CycleData) (m : Model) : Model :=
  let m := add_flightconditions m cd.fc
  let m := add_inlets m cd.inlets
  let m := add_compressors m cd.comp
  let m := add_splitters m cd.splitters
  let m := add_ducts m cd.duct
  let m := add_bleeds m cd.bleeds
  let m := add_combustors m cd.comb
  let m := add_turbines m cd.turb
  let m := add_nozzles m cd.nozz
  let m := add_shafts m cd.shafts
  let m := add_perfomance m cd
  let m := { m with connections := m.connections ++
    connect_compturb_fn cd.comp cd.shafts cd.cycleInfo.global_connections }
  let m := { m with connections := m.connections ++
    connect_nozz_fc_fn cd.nozz cd.fc }
  m.addSubsystem "balance" "BalanceComp"

/-- The design-mode balance block of `setup` (lines 249-270), in source
call order. -/
def designBlock (m : Model) : Model :=
  m.addBalance { name := "W", units := some "lbm/s", eqUnits := some "lbf" }
    |>.conn "balance.W" "fc.W"
    |>.conn "perf.Fn" "balance.lhs:W"
    |>.promote "rhs:W" "Fn_DES"
    |>.addBalance { name := "FAR", eqUnits := some "degR", lower := some 0.0001,
                    val := some 0.017 }
    |>.conn "balance.FAR" "burner.Fl_I:FAR"
    |>.conn "burner.Fl_O:tot:T" "balance.lhs:FAR"
    |>.promote "rhs:FAR" "T4_MAX"
    |>.addBalance { name := "lpt_PR", val := some 1.5, lower := some 1.001,
                    upper := some 8, eqUnits := some "hp", useMult := true,
                    multVal := some (-1) }
    |>.conn "balance.lpt_PR" "lpt.PR"
    |>.conn "lp_shaft.pwr_in_real" "balance.lhs:lpt_PR"
    |>.conn "lp_shaft.pwr_out_real" "balance.rhs:lpt_PR"
    |>.addBalance { name := "hpt_PR", val := some 1.5, lower := some 1.001,
                    upper := some 8, eqUnits := some "hp", useMult := true,
                    multVal := some (-1) }
    |>.conn "balance.hpt_PR" "hpt.PR"
    |>.conn "hp_shaft.pwr_in_real" "balance.lhs:hpt_PR"
    |>.conn "hp_shaft.pwr_out_real" "balance.rhs:hpt_PR"

/-- The throttle-mode-dependent FAR balance of the off-design branch
(lines 288-298): the `T4` case targets the burner exit temperature, the
`percent_thrust` case targets net thrust against a multiplier-scaled
maximum thrust; any other string adds nothing (unreachable behind the
option check of `initialize`). -/
def odFarBlock (throttle : String) (m : Model) : Model :=
  if throttle = "T4" then
    m.addBalance { name := "FAR", val := some 0.017, lower := some 0.0001,
                   eqUnits := some "degR" }
      |>.conn "balance.FAR" "burner.Fl_I:FAR"
      |>.conn "burner.Fl_O:tot:T" "balance.lhs:FAR"
      |>.promote "rhs:FAR" "T4_MAX"
  else if throttle = "percent_thrust" then
    m.addBalance { name := "FAR", val := some 0.017, lower := some 0.0001,
                   eqUnits := some "lbf", useMult := true }
      |>.conn "balance.FAR" "burner.Fl_I:FAR"
      |>.conn "perf.Fn" "balance.rhs:FAR"
      |>.promote "mult:FAR" "PC"
      |>.promote "lhs:FAR" "Fn_max"
  else m

/-- The throttle-mode-independent tail of the off-design balance block
(lines 300-321): W on the core-nozzle throat area, BPR on the
bypass-nozzle throat area, and the two spool-speed torque balances with
multiplier -1. -/
def odCommonBlock (m : Model) : Model :=
  m.addBalance { name := "W", units := some "lbm/s", lower := some 10,
                 upper := some 1000, eqUnits := some "inch**2" }
    |>.conn "balance.W" "fc.W"
    |>.conn "core_nozz.Throat:stat:area" "balance.lhs:W"
    |>.addBalance { name := "BPR", lower := some 2, upper := some 10,
                    eqUnits := some "inch**2" }
    |>.conn "balance.BPR" "splitter.BPR"
    |>.conn "byp_nozz.Throat:stat:area" "balance.lhs:BPR"
    |>.addBalance { name := "lp_Nmech", val := some 1.5, units := some "rpm",
                    lower := some 500, eqUnits := some "hp", useMult := true,
                    multVal := some (-1) }
    |>.conn "balance.lp_Nmech" "LP_Nmech"
    |>.conn "lp_shaft.pwr_in_real" "balance.lhs:lp_Nmech"
    |>.conn "lp_shaft.pwr_out_real" "balance.rhs:lp_Nmech"
    |>.addBalance { name := "hp_Nmech", val := some 1.5, units := some "rpm",
                    lower := some 500, eqUnits := some "hp", useMult := true,
                    multVal := some (-1) }
    |>.conn "balance.hp_Nmech" "HP_Nmech"
    |>.conn "hp_shaft.pwr_in_real" "balance.lhs:hp_Nmech"
    |>.conn "hp_shaft.pwr_out_real" "balance.rhs:hp_Nmech"

/-- The whole balance section of `setup`: the design block when
`design` is true, otherwise the mode-dependent FAR balance followed by
the common off-design tail. -/
def balanceBlock (cd : CycleData) (m : Model) : Model :=
  if cd.cycleInfo.design then designBlock m
  else odCommonBlock (odFarBlock cd.cycleInfo.throttle_mode m)

/-- The hard-coded execution order of `set_order` (lines 325-350). -/
def hbtfOrderList : List String :=
  ["balance", "fc", "inlet", "fan", "splitter", "duct4", "lpc", "duct6",
   "hpc", "bld3", "burner", "hpt", "duct11", "lpt", "duct13", "core_nozz",
   "byp_bld", "duct15", "byp_nozz", "lp_shaft", "hp_shaft", "perf"]

/-- The tail of `setup` (lines 325-356): execution order, flow
connections, bleed connections. -/
def finishSetup (cd : CycleData) (m : Model) : Model :=
  { m with
    order := hbtfOrderList
    flowEdges := m.flowEdges ++ connect_flow_fn cd.cycleInfo.flow_connections
    bleedEdges := m.bleedEdges ++ connect_bleeds_fn cd }

/-- `HBTFBuilder.setup`: assigning the `throttle_mode` option (line 197)
is validated against the value list declared in `initialize`; with an
allowed value the model is assembled (element adds, balance section,
order, flow and bleed connections), otherwise OpenMDAO raises. -/
def hbtfSetup (cd : CycleData) : Except String Model :=
  if cd.cycleInfo.throttle_mode ∈ throttleModeValues then
    Except.ok (finishSetup cd (balanceBlock cd (addElements cd (initModel cd))))
  else
    Except.error ("Value (" ++ cd.cycleInfo.throttle_mode ++
      ") is not one of ['T4', 'percent_thrust']")

/-- The off-design points added by `MPhbtf.setup`
(propulsion_performance_builder.py lines 98 and 104), with their
throttle modes. -/
def mphbtfOdPoints : List (String × String) :=
  [("OD_full_pwr", "T4"), ("OD_part_pwr", "percent_thrust")]

/-- Modelled from the spec: `pyc.MPCycle.pyc_connect_des_od` is not part
of this repository (pycycle is an external collaborator); per the spec,
"On Design convergence, an immutable snapshot of these derived outputs
is bound into every OffDesign point's BalanceManager targets", so each
des-od source is connected from the `DESIGN` point to the same target on
every off-design point. -/
def pyc_connect_des_od (odNames : List String) (src tgt : String) :
    List (String × String) :=
  odNames.map (fun od => ("DESIGN." ++ src, od ++ "." ++ tgt))

/-- The des-od balance-target bindings made by `MPhbtf.setup`
(lines 115-116): the Design core-nozzle throat area feeds every
off-design `balance.rhs:W`, the Design bypass-nozzle throat area every
off-design `balance.rhs:BPR`. -/
def mphbtfDesOdConnections : List (String × String) :=
  pyc_connect_des_od (mphbtfOdPoints.map Prod.fst)
      "core_nozz.Throat:stat:area" "balance.rhs:W" ++
  pyc_connect_des_od (mphbtfOdPoints.map Prod.fst)
      "byp_nozz.Throat:stat:area" "balance.rhs:BPR"

end ADH

namespace ADH

theorem conn_balances (m : Model) (a b : String) :
    (m.conn a b).balances = m.balances := rfl

theorem conn_promotes (m : Model) (a b : String) :
    (m.conn a b).promotes = m.promotes := rfl

theorem conn_connections (m : Model) (a b : String) :
    (m.conn a b).connections = m.connections ++ [(a, b)] := rfl

theorem promote_balances (m : Model) (a b : String) :
    (m.promote a b).balances = m.balances := rfl

theorem promote_connections (m : Model) (a b : String) :
    (m.promote a b).connections = m.connections := rfl

theorem promote_promotes (m : Model) (a b : String) :
    (m.promote a b).promotes = m.promotes ++ [(a, b)] := rfl

theorem addBalance_balances (m : Model) (b : Balance) :
    (m.addBalance b).balances = m.balances ++ [b] := rfl

theorem addBalance_connections (m : Model) (b : Balance) :
    (m.addBalance b).connections = m.connections := rfl

theorem addBalance_promotes (m : Model) (b : Balance) :
    (m.addBalance b).promotes = m.promotes := rfl

theorem addElements_balances (cd : CycleData) (m : Model) :
    (addElements cd m).balances = m.balances := by
  simp [addElements, add_flightconditions, add_inlets, add_compressors,
    add_splitters, add_ducts, add_bleeds, add_combustors, add_turbines,
    add_nozzles, add_shafts, add_perfomance, Model.addSubsystem]

theorem addElements_thermo (cd : CycleData) (m : Model) :
    (addElements cd m).thermoMethod = m.thermoMethod ∧
    (addElements cd m).thermoData = m.thermoData := by
  constructor <;>
  simp [addElements, add_flightconditions, add_inlets, add_compressors,
    add_splitters, add_ducts, add_bleeds, add_combustors, add_turbines,
    add_nozzles, add_shafts, add_perfomance, Model.addSubsystem]

theorem finishSetup_balances (cd : CycleData) (m : Model) :
    (finishSetup cd m).balances = m.balances := rfl

theorem finishSetup_connections (cd : CycleData) (m : Model) :
    (finishSetup cd m).connections = m.connections := rfl

theorem finishSetup_promotes (cd : CycleData) (m : Model) :
    (finishSetup cd m).promotes = m.promotes := rfl

theorem finishSetup_thermo (cd : CycleData) (m : Model) :
    (finishSetup cd m).thermoMethod = m.thermoMethod ∧
    (finishSetup cd m).thermoData = m.thermoData := ⟨rfl, rfl⟩

theorem designBlock_balances (m : Model) :
    (designBlock m).balances = m.balances ++
      [{ name := "W", units := some "lbm/s", eqUnits := some "lbf" },
       { name := "FAR", eqUnits := some "degR", lower := some 0.0001,
         val := some 0.017 },
       { name := "lpt_PR", val := some 1.5, lower := some 1.001,
         upper := some 8, eqUnits := some "hp", useMult := true,
         multVal := some (-1) },
       { name := "hpt_PR", val := some 1.5, lower := some 1.001,
         upper := some 8, eqUnits := some "hp", useMult := true,
         multVal := some (-1) }] := by
  simp [designBlock, Model.addBalance, Model.conn, Model.promote]

theorem designBlock_connections (m : Model) :
    (designBlock m).connections = m.connections ++
      [("balance.W", "fc.W"), ("perf.Fn", "balance.lhs:W"),
       ("balance.FAR", "burner.Fl_I:FAR"),
       ("burner.Fl_O:tot:T", "balance.lhs:FAR"),
       ("balance.lpt_PR", "lpt.PR"),
       ("lp_shaft.pwr_in_real", "balance.lhs:lpt_PR"),
       ("lp_shaft.pwr_out_real", "balance.rhs:lpt_PR"),
       ("balance.hpt_PR", "hpt.PR"),
       ("hp_shaft.pwr_in_real", "balance.lhs:hpt_PR"),
       ("hp_shaft.pwr_out_real", "balance.rhs:hpt_PR")] := by
  simp [designBlock, Model.addBalance, Model.conn, Model.promote]

theorem designBlock_promotes (m : Model) :
    (designBlock m).promotes = m.promotes ++
      [("rhs:W", "Fn_DES"), ("rhs:FAR", "T4_MAX")] := by
  simp [designBlock, Model.addBalance, Model.conn, Model.promote]

theorem designBlock_thermo (m : Model) :
    (designBlock m).thermoMethod = m.thermoMethod ∧
    (designBlock m).thermoData = m.thermoData := by
  constructor <;> simp [designBlock, Model.addBalance, Model.conn, Model.promote]

end ADH

namespace ADH

theorem odCommonBlock_balances (m : Model) :
    (odCommonBlock m).balances = m.balances ++
      [{ name := "W", units := some "lbm/s", lower := some 10,
         upper := some 1000, eqUnits := some "inch**2" },
       { name := "BPR", lower := some 2, upper := some 10,
         eqUnits := some "inch**2" },
       { name := "lp_Nmech", val := some 1.5, units := some "rpm",
         lower := some 500, eqUnits := some "hp", useMult := true,
         multVal := some (-1) },
       { name := "hp_Nmech", val := some 1.5, units := some "rpm",
         lower := some 500, eqUnits := some "hp", useMult := true,
         multVal := some (-1) }] := by
  simp [odCommonBlock, Model.addBalance, Model.conn, Model.promote]

theorem odCommonBlock_connections (m : Model) :
    (odCommonBlock m).connections = m.connections ++
      [("balance.W", "fc.W"), ("core_nozz.Throat:stat:area", "balance.lhs:W"),
       ("balance.BPR", "splitter.BPR"),
       ("byp_nozz.Throat:stat:area", "balance.lhs:BPR"),
       ("balance.lp_Nmech", "LP_Nmech"),
       ("lp_shaft.pwr_in_real", "balance.lhs:lp_Nmech"),
       ("lp_shaft.pwr_out_real", "balance.rhs:lp_Nmech"),
       ("balance.hp_Nmech", "HP_Nmech"),
       ("hp_shaft.pwr_in_real", "balance.lhs:hp_Nmech"),
       ("hp_shaft.pwr_out_real", "balance.rhs:hp_Nmech")] := by
  simp [odCommonBlock, Model.addBalance, Model.conn, Model.promote]

theorem odCommonBlock_promotes (m : Model) :
    (odCommonBlock m).promotes = m.promotes := by
  simp [odCommonBlock, Model.addBalance, Model.conn, Model.promote]

theorem odCommonBlock_thermo (m : Model) :
    (odCommonBlock m).thermoMethod = m.thermoMethod ∧
    (odCommonBlock m).thermoData = m.thermoData := by
  constructor <;> simp [odCommonBlock, Model.addBalance, Model.conn, Model.promote]

theorem odFarBlock_t4_balances (m : Model) :
    (odFarBlock "T4" m).balances = m.balances ++
      [{ name := "FAR", val := some 0.017, lower := some 0.0001,
         eqUnits := some "degR" }] := by
  simp [odFarBlock, Model.addBalance, Model.conn, Model.promote]

theorem odFarBlock_t4_connections (m : Model) :
    (odFarBlock "T4" m).connections = m.connections ++
      [("balance.FAR", "burner.Fl_I:FAR"),
       ("burner.Fl_O:tot:T", "balance.lhs:FAR")] := by
  simp [odFarBlock, Model.addBalance, Model.conn, Model.promote]

theorem odFarBlock_t4_promotes (m : Model) :
    (odFarBlock "T4" m).promotes = m.promotes ++ [("rhs:FAR", "T4_MAX")] := by
  simp [odFarBlock, Model.addBalance, Model.conn, Model.promote]

theorem odFarBlock_pct_balances (m : Model) :
    (odFarBlock "percent_thrust" m).balances = m.balances ++
      [{ name := "FAR", val := some 0.017, lower := some 0.0001,
         eqUnits := some "lbf", useMult := true }] := by
  simp [odFarBlock, Model.addBalance, Model.conn, Model.promote]

theorem odFarBlock_pct_connections (m : Model) :
    (odFarBlock "percent_thrust" m).connections = m.connections ++
      [("balance.FAR", "burner.Fl_I:FAR"), ("perf.Fn", "balance.rhs:FAR")] := by
  simp [odFarBlock, Model.addBalance, Model.conn, Model.promote]

theorem odFarBlock_pct_promotes (m : Model) :
    (odFarBlock "percent_thrust" m).promotes = m.promotes ++
      [("mult:FAR", "PC"), ("lhs:FAR", "Fn_max")] := by
  simp [odFarBlock, Model.addBalance, Model.conn, Model.promote]

theorem odFarBlock_thermo (t : String) (m : Model) :
    (odFarBlock t m).thermoMethod = m.thermoMethod ∧
    (odFarBlock t m).thermoData = m.thermoData := by
  constructor <;>
    (unfold odFarBlock; split <;> try split) <;>
    simp [Model.addBalance, Model.conn, Model.promote]

end ADH

namespace ADH

/-- With pairwise-distinct keys, folding Python-dict insertion over an
empty dict reproduces the insertion list itself: no entry is replaced,
every entry is appended. -/
theorem foldl_dictInsert_eq :
    ∀ (l acc : List (String × List String)),
      ((acc ++ l).map Prod.fst).Nodup → l.foldl dictInsert acc = acc ++ l := by
  intro l
  induction l with
  | nil => intro acc _; simp
  | cons p t ih =>
    intro acc h
    have hmapapp : (acc ++ p :: t).map Prod.fst =
        acc.map Prod.fst ++ (p.1 :: t.map Prod.fst) := by simp
    rw [hmapapp] at h
    have hdisj := (List.nodup_append.mp h).2.2
    have hp1 : p.1 ∉ acc.map Prod.fst := fun hm => hdisj hm (List.mem_cons_self _ _)
    have hany : acc.any (fun q => q.1 = p.1) = false := by
      rw [List.any_eq_false]
      intro q hq
      simp only [decide_eq_true_eq]
      intro hqe
      exact hp1 (hqe ▸ List.mem_map_of_mem Prod.fst hq)
    have hins : dictInsert acc p = acc ++ [p] := by
      simp [dictInsert, hany]
    have happ : (acc ++ [p]) ++ t = acc ++ p :: t := by simp
    calc List.foldl dictInsert acc (p :: t)
        = List.foldl dictInsert (dictInsert acc p) t := rfl
      _ = List.foldl dictInsert (acc ++ [p]) t := by rw [hins]
      _ = (acc ++ [p]) ++ t := ih (acc ++ [p]) (by rw [happ, hmapapp]; exact h)
      _ = acc ++ p :: t := happ

/-- The compressor entries declaring a given bleed name, in declaration
order. -/
def compDecl (cd : CycleData) (bn : String) : List String :=
  cd.comp.filterMap (fun c => if bn ∈ c.bleed_names then some c.name else none)

/-- The Bleed-element entries declaring a given bleed name, in
declaration order. -/
def bleedElemDecl (cd : CycleData) (bn : String) : List String :=
  cd.bleeds.filterMap (fun b => if bn ∈ b.bleed_names then some b.name else none)

/-- The turbine entries declaring a given bleed name, in declaration
order. -/
def turbDecl (cd : CycleData) (bn : String) : List String :=
  cd.turb.filterMap (fun t => if bn ∈ t.bleed_names then some t.name else none)

/-- Name uniqueness across the three element kinds that can declare
bleed names (the data-model invariant: element names are unique within
one cycle point). -/
def distinctElementNames (cd : CycleData) : Prop :=
  (cd.comp.map CompData.name ++ cd.bleeds.map BleedData.name ++
    cd.turb.map TurbData.name).Nodup

instance (cd : CycleData) : Decidable (distinctElementNames cd) := by
  unfold distinctElementNames; infer_instance

theorem allPairs_fst (cd : CycleData) :
    (allBleedPairsList cd).map Prod.fst =
      cd.comp.map CompData.name ++ cd.bleeds.map BleedData.name ++
        cd.turb.map TurbData.name := by
  simp only [allBleedPairsList, List.map_append, List.map_map]
  rfl

theorem bleedPairs_eq (cd : CycleData) (h : distinctElementNames cd) :
    bleedPairs cd = allBleedPairsList cd := by
  unfold bleedPairs
  have h2 : (([] ++ allBleedPairsList cd).map Prod.fst).Nodup := by
    rw [List.nil_append, allPairs_fst]; exact h
  simpa using foldl_dictInsert_eq (allBleedPairsList cd) [] h2

/-- Under unique element names, the owner list of a bleed name is the
declaring compressors, then the declaring Bleed elements, then the
declaring turbines, each in declaration order. -/
theorem ownersOf_split (cd : CycleData) (bn : String)
    (h : distinctElementNames cd) :
    ownersOf cd bn = compDecl cd bn ++ bleedElemDecl cd bn ++ turbDecl cd bn := by
  unfold ownersOf
  rw [bleedPairs_eq cd h]
  simp only [allBleedPairsList, List.filterMap_append, List.filterMap_map,
    compDecl, bleedElemDecl, turbDecl]
  rfl

theorem bleedEdgeFor_owners (cd : CycleData) (bn : String) :
    bleedEdgeFor (bleedPairs cd) bn =
      match ownersOf cd bn with
      | a :: b :: _ => some (a ++ "." ++ bn, b ++ "." ++ bn)
      | _ => none := rfl

end ADH

namespace ADH

/-- The compressors of the demo engine declaration in the `__main__`
block of propulsion_performance_builder.py. -/
def demoComp : List CompData :=
  [{ name := "fan", map_data := "FanMap", bleed_names := [], map_extrap := true },
   { name := "lpc", map_data := "LPCMap", bleed_names := [], map_extrap := true },
   { name := "hpc", map_data := "HPCMap", bleed_names := ["cool1", "cool2", "cust"],
     map_extrap := true }]

/-- The turbines of the demo engine declaration. -/
def demoTurb : List TurbData :=
  [{ name := "hpt", map_data := "HPTMap", bleed_names := ["cool3", "cool4"],
     map_extrap := true },
   { name := "lpt", map_data := "LPTMap", bleed_names := ["cool1", "cool2"],
     map_extrap := true }]

/-- The Bleed elements of the demo engine declaration. -/
def demoBleeds : List BleedData :=
  [{ name := "bld3", bleed_names := ["cool3", "cool4"] },
   { name := "byp_bld", bleed_names := ["bypBld"] }]

/-- The shafts of the demo engine declaration. -/
def demoShafts : List ShaftData :=
  [{ name := "lp_shaft", num_ports := 3, nmech_type := "LP" },
   { name := "hp_shaft", num_ports := 2, nmech_type := "HP" }]

/-- The global turbomachinery-to-shaft pairs of the demo engine
declaration. -/
def demoGC : List String :=
  ["fan,lp_shaft", "lpc,lp_shaft", "lpt,lp_shaft", "hpc,hp_shaft", "hpt,hp_shaft"]

/-- The flow connections of the demo engine declaration. -/
def demoFlow : List (List String) :=
  [["fc", "inlet"], ["inlet", "fan"], ["fan", "splitter"],
   ["splitter", "duct4", "1"], ["duct4", "lpc"], ["lpc", "duct6"],
   ["duct6", "hpc"], ["hpc", "bld3"], ["bld3", "burner"], ["burner", "hpt"],
   ["hpt", "duct11"], ["duct11", "lpt"], ["lpt", "duct13"],
   ["duct13", "core_nozz"], ["splitter", "byp_bld", "2"],
   ["byp_bld", "duct15"], ["duct15", "byp_nozz"]]

/-- The cycle metadata of the demo engine declaration (design point,
tabular thermo package, T4 throttle mode). -/
def demoInfo : CycleInfo :=
  { name := "Cycle", design := true, thermo_method := "TABULAR",
    throttle_mode := "T4", global_connections := demoGC,
    flow_connections := demoFlow }

/-- The demo cycle data handed to the builder. -/
def demoCd : CycleData :=
  { cycleInfo := demoInfo,
    fc := [{ name := "fc" }], inlets := [{ name := "inlet" }],
    splitters := [{ name := "splitter" }],
    duct := [{ name := "duct4" }, { name := "duct6" }, { name := "duct11" },
             { name := "duct13" }, { name := "duct15" }],
    comp := demoComp,
    comb := [{ name := "burner", fuel_type := "FAR" }],
    turb := demoTurb,
    nozz := [{ name := "core_nozz", nozz_type := "CV", loss_coef := "Cv" },
             { name := "byp_nozz", nozz_type := "CV", loss_coef := "Cv" }],
    shafts := demoShafts, bleeds := demoBleeds, perf := [] }

/-- The demo data switched to an off-design T4 point. -/
def demoOdT4Cd : CycleData :=
  { demoCd with cycleInfo := { demoInfo with design := false } }

/-- The demo data switched to an off-design percent-thrust point. -/
def demoOdPctCd : CycleData :=
  { demoCd with cycleInfo :=
      { demoInfo with design := false, throttle_mode := "percent_thrust" } }

end ADH

namespace ADH

/-- The Design-mode balance property asserted by the spec for one cycle
data input: exactly the four balances W, FAR, lpt_PR, hpt_PR (the last
two with multiplier -1), with W fed by net thrust against the promoted
design-thrust target, FAR fed by the burner exit total temperature
against the promoted T4 target, and the two pressure-ratio balances fed
by shaft power-in against power-out. -/
def designBalanceSpec (cd : CycleData) : Prop :=
  ∃ m, hbtfSetup cd = Except.ok m ∧
    m.balances.map (fun b => (b.name, b.useMult, b.multVal)) =
      [("W", false, none), ("FAR", false, none),
       ("lpt_PR", true, some (-1)), ("hpt_PR", true, some (-1))] ∧
    ("balance.W", "fc.W") ∈ m.connections ∧
    ("perf.Fn", "balance.lhs:W") ∈ m.connections ∧
    ("rhs:W", "Fn_DES") ∈ m.promotes ∧
    ("balance.FAR", "burner.Fl_I:FAR") ∈ m.connections ∧
    ("burner.Fl_O:tot:T", "balance.lhs:FAR") ∈ m.connections ∧
    ("rhs:FAR", "T4_MAX") ∈ m.promotes ∧
    ("balance.lpt_PR", "lpt.PR") ∈ m.connections ∧
    ("lp_shaft.pwr_in_real", "balance.lhs:lpt_PR") ∈ m.connections ∧
    ("lp_shaft.pwr_out_real", "balance.rhs:lpt_PR") ∈ m.connections ∧
    ("balance.hpt_PR", "hpt.PR") ∈ m.connections ∧
    ("hp_shaft.pwr_in_real", "balance.lhs:hpt_PR") ∈ m.connections ∧
    ("hp_shaft.pwr_out_real", "balance.rhs:hpt_PR") ∈ m.connections

/-- C2: for every cycle point built in Design mode, the active balance
set is exactly {W, FAR, lpt_PR, hpt_PR}: W drives net thrust to the
design thrust target, FAR drives combustor exit total temperature to
the target T4, and lpt_PR / hpt_PR drive low- and high-pressure shaft
power-in against power-out with multiplier -1. -/
theorem design_balance_set (cd : CycleData)
    (hdes : cd.cycleInfo.design = true)
    (hthr : cd.cycleInfo.throttle_mode ∈ throttleModeValues) :
    designBalanceSpec cd := by
  have hbb : balanceBlock cd (addElements cd (initModel cd)) =
      designBlock (addElements cd (initModel cd)) := by
    simp [balanceBlock, hdes]
  unfold designBalanceSpec hbtfSetup
  rw [if_pos hthr, hbb]
  have hb : (finishSetup cd (designBlock (addElements cd (initModel cd)))).balances =
      [{ name := "W", units := some "lbm/s", eqUnits := some "lbf" },
       { name := "FAR", eqUnits := some "degR", lower := some 0.0001,
         val := some 0.017 },
       { name := "lpt_PR", val := some 1.5, lower := some 1.001,
         upper := some 8, eqUnits := some "hp", useMult := true,
         multVal := some (-1) },
       { name := "hpt_PR", val := some 1.5, lower := some 1.001,
         upper := some 8, eqUnits := some "hp", useMult := true,
         multVal := some (-1) }] := by
    rw [finishSetup_balances, designBlock_balances, addElements_balances]
    rfl
  have hc : ∀ p ∈ [("balance.W", "fc.W"), ("perf.Fn", "balance.lhs:W"),
       ("balance.FAR", "burner.Fl_I:FAR"),
       ("burner.Fl_O:tot:T", "balance.lhs:FAR"),
       ("balance.lpt_PR", "lpt.PR"),
       ("lp_shaft.pwr_in_real", "balance.lhs:lpt_PR"),
       ("lp_shaft.pwr_out_real", "balance.rhs:lpt_PR"),
       ("balance.hpt_PR", "hpt.PR"),
       ("hp_shaft.pwr_in_real", "balance.lhs:hpt_PR"),
       ("hp_shaft.pwr_out_real", "balance.rhs:hpt_PR")],
      p ∈ (finishSetup cd (designBlock (addElements cd (initModel cd)))).connections := by
    intro p hp
    rw [finishSetup_connections, designBlock_connections]
    exact List.mem_append.mpr (Or.inr hp)
  have hq : ∀ q ∈ [("rhs:W", "Fn_DES"), ("rhs:FAR", "T4_MAX")],
      q ∈ (finishSetup cd (designBlock (addElements cd (initModel cd)))).promotes := by
    intro q hquf
    rw [finishSetup_promotes, designBlock_promotes]
    exact List.mem_append.mpr (Or.inr hquf)
  exact ⟨_, rfl, by rw [hb]; rfl, hc _ (by decide), hc _ (by decide), hq _ (by decide),
    hc _ (by decide), hc _ (by decide), hq _ (by decide), hc _ (by decide),
    hc _ (by decide), hc _ (by decide), hc _ (by decide), hc _ (by decide),
    hc _ (by decide)⟩

/-- Witness for C2 at the demo design-point declaration. -/
theorem design_balance_set_witness :
    demoCd.cycleInfo.design = true ∧
    demoCd.cycleInfo.throttle_mode ∈ throttleModeValues ∧
    designBalanceSpec demoCd :=
  ⟨rfl, by decide, design_balance_set demoCd rfl (by decide)⟩

end ADH

namespace ADH

/-- The throttle-mode-independent off-design balance wiring: W fed by
the core-nozzle throat area, BPR fed by the bypass-nozzle throat area,
and lp_Nmech / hp_Nmech fed by shaft power-in against power-out. -/
def odCommonWiring (m : Model) : Prop :=
  ("balance.W", "fc.W") ∈ m.connections ∧
  ("core_nozz.Throat:stat:area", "balance.lhs:W") ∈ m.connections ∧
  ("balance.BPR", "splitter.BPR") ∈ m.connections ∧
  ("byp_nozz.Throat:stat:area", "balance.lhs:BPR") ∈ m.connections ∧
  ("balance.lp_Nmech", "LP_Nmech") ∈ m.connections ∧
  ("lp_shaft.pwr_in_real", "balance.lhs:lp_Nmech") ∈ m.connections ∧
  ("lp_shaft.pwr_out_real", "balance.rhs:lp_Nmech") ∈ m.connections ∧
  ("balance.hp_Nmech", "HP_Nmech") ∈ m.connections ∧
  ("hp_shaft.pwr_in_real", "balance.lhs:hp_Nmech") ∈ m.connections ∧
  ("hp_shaft.pwr_out_real", "balance.rhs:hp_Nmech") ∈ m.connections

/-- The off-design T4 balance property: FAR drives the burner exit
temperature to the promoted T4 target, plus the common off-design
wiring; the two spool-speed balances carry multiplier -1. -/
def odT4BalanceSpec (cd : CycleData) : Prop :=
  ∃ m, hbtfSetup cd = Except.ok m ∧
    m.balances.map (fun b => (b.name, b.useMult, b.multVal)) =
      [("FAR", false, none), ("W", false, none), ("BPR", false, none),
       ("lp_Nmech", true, some (-1)), ("hp_Nmech", true, some (-1))] ∧
    ("balance.FAR", "burner.Fl_I:FAR") ∈ m.connections ∧
    ("burner.Fl_O:tot:T", "balance.lhs:FAR") ∈ m.connections ∧
    ("rhs:FAR", "T4_MAX") ∈ m.promotes ∧
    odCommonWiring m

/-- The off-design percent-thrust balance property: FAR drives net
thrust (fed to the balance right-hand side) against the promoted
maximum-thrust reference scaled by the promoted multiplier PC, plus the
common off-design wiring. -/
def odPctBalanceSpec (cd : CycleData) : Prop :=
  ∃ m, hbtfSetup cd = Except.ok m ∧
    m.balances.map (fun b => (b.name, b.useMult, b.multVal)) =
      [("FAR", true, none), ("W", false, none), ("BPR", false, none),
       ("lp_Nmech", true, some (-1)), ("hp_Nmech", true, some (-1))] ∧
    ("balance.FAR", "burner.Fl_I:FAR") ∈ m.connections ∧
    ("perf.Fn", "balance.rhs:FAR") ∈ m.connections ∧
    ("mult:FAR", "PC") ∈ m.promotes ∧
    ("lhs:FAR", "Fn_max") ∈ m.promotes ∧
    odCommonWiring m

/-- C3: for every cycle point built in off-design mode, the balance set
is mode-dependent for FAR (T4 target vs. multiplier-scaled fraction of a
reference maximum thrust) and common otherwise: W on the core-nozzle
throat area, BPR on the bypass-nozzle throat area, lp_Nmech and
hp_Nmech on shaft power with multiplier -1; the throat-area targets are
bound from the Design point by the multi-point des-od table. -/
theorem offdesign_balance_sets (cd : CycleData)
    (hdes : cd.cycleInfo.design = false) :
    (cd.cycleInfo.throttle_mode = "T4" → odT4BalanceSpec cd) ∧
    (cd.cycleInfo.throttle_mode = "percent_thrust" → odPctBalanceSpec cd) ∧
    (∀ od ∈ mphbtfOdPoints.map Prod.fst,
      ("DESIGN.core_nozz.Throat:stat:area", od ++ ".balance.rhs:W") ∈
        mphbtfDesOdConnections ∧
      ("DESIGN.byp_nozz.Throat:stat:area", od ++ ".balance.rhs:BPR") ∈
        mphbtfDesOdConnections) := by
  refine ⟨?_, ?_, by decide⟩
  · intro ht4
    have hthr : cd.cycleInfo.throttle_mode ∈ throttleModeValues := by
      rw [ht4]; decide
    have hbb : balanceBlock cd (addElements cd (initModel cd)) =
        odCommonBlock (odFarBlock "T4" (addElements cd (initModel cd))) := by
      simp [balanceBlock, hdes, ht4]
    unfold odT4BalanceSpec hbtfSetup
    rw [if_pos hthr, hbb]
    have hb : (finishSetup cd (odCommonBlock (odFarBlock "T4"
        (addElements cd (initModel cd))))).balances.map
          (fun b => (b.name, b.useMult, b.multVal)) =
        [("FAR", false, none), ("W", false, none), ("BPR", false, none),
         ("lp_Nmech", true, some (-1)), ("hp_Nmech", true, some (-1))] := by
      rw [finishSetup_balances, odCommonBlock_balances, odFarBlock_t4_balances,
        addElements_balances]
      rfl
    have hc : ∀ p ∈ [("balance.FAR", "burner.Fl_I:FAR"),
        ("burner.Fl_O:tot:T", "balance.lhs:FAR")],
        p ∈ (finishSetup cd (odCommonBlock (odFarBlock "T4"
          (addElements cd (initModel cd))))).connections := by
      intro p hp
      rw [finishSetup_connections, odCommonBlock_connections,
        odFarBlock_t4_connections]
      exact List.mem_append.mpr (Or.inl (List.mem_append.mpr (Or.inr hp)))
    have hcc : ∀ p ∈ [("balance.W", "fc.W"),
        ("core_nozz.Throat:stat:area", "balance.lhs:W"),
        ("balance.BPR", "splitter.BPR"),
        ("byp_nozz.Throat:stat:area", "balance.lhs:BPR"),
        ("balance.lp_Nmech", "LP_Nmech"),
        ("lp_shaft.pwr_in_real", "balance.lhs:lp_Nmech"),
        ("lp_shaft.pwr_out_real", "balance.rhs:lp_Nmech"),
        ("balance.hp_Nmech", "HP_Nmech"),
        ("hp_shaft.pwr_in_real", "balance.lhs:hp_Nmech"),
        ("hp_shaft.pwr_out_real", "balance.rhs:hp_Nmech")],
        p ∈ (finishSetup cd (odCommonBlock (odFarBlock "T4"
          (addElements cd (initModel cd))))).connections := by
      intro p hp
      rw [finishSetup_connections, odCommonBlock_connections]
      exact List.mem_append.mpr (Or.inr hp)
    have hqq : ("rhs:FAR", "T4_MAX") ∈ (finishSetup cd (odCommonBlock
        (odFarBlock "T4" (addElements cd (initModel cd))))).promotes := by
      rw [finishSetup_promotes, odCommonBlock_promotes, odFarBlock_t4_promotes]
      exact List.mem_append.mpr (Or.inr (by decide))
    exact ⟨_, rfl, hb, hc _ (by decide), hc _ (by decide), hqq,
      hcc _ (by decide), hcc _ (by decide), hcc _ (by decide),
      hcc _ (by decide), hcc _ (by decide), hcc _ (by decide),
      hcc _ (by decide), hcc _ (by decide), hcc _ (by decide),
      hcc _ (by decide)⟩
  · intro hpct
    have hthr : cd.cycleInfo.throttle_mode ∈ throttleModeValues := by
      rw [hpct]; decide
    have hbb : balanceBlock cd (addElements cd (initModel cd)) =
        odCommonBlock (odFarBlock "percent_thrust"
          (addElements cd (initModel cd))) := by
      simp [balanceBlock, hdes, hpct]
    unfold odPctBalanceSpec hbtfSetup
    rw [if_pos hthr, hbb]
    have hb : (finishSetup cd (odCommonBlock (odFarBlock "percent_thrust"
        (addElements cd (initModel cd))))).balances.map
          (fun b => (b.name, b.useMult, b.multVal)) =
        [("FAR", true, none), ("W", false, none), ("BPR", false, none),
         ("lp_Nmech", true, some (-1)), ("hp_Nmech", true, some (-1))] := by
      rw [finishSetup_balances, odCommonBlock_balances, odFarBlock_pct_balances,
        addElements_balances]
      rfl
    have hc : ∀ p ∈ [("balance.FAR", "burner.Fl_I:FAR"),
        ("perf.Fn", "balance.rhs:FAR")],
        p ∈ (finishSetup cd (odCommonBlock (odFarBlock "percent_thrust"
          (addElements cd (initModel cd))))).connections := by
      intro p hp
      rw [finishSetup_connections, odCommonBlock_connections,
        odFarBlock_pct_connections]
      exact List.mem_append.mpr (Or.inl (List.mem_append.mpr (Or.inr hp)))
    have hcc : ∀ p ∈ [("balance.W", "fc.W"),
        ("core_nozz.Throat:stat:area", "balance.lhs:W"),
        ("balance.BPR", "splitter.BPR"),
        ("byp_nozz.Throat:stat:area", "balance.lhs:BPR"),
        ("balance.lp_Nmech", "LP_Nmech"),
        ("lp_shaft.pwr_in_real", "balance.lhs:lp_Nmech"),
        ("lp_shaft.pwr_out_real", "balance.rhs:lp_Nmech"),
        ("balance.hp_Nmech", "HP_Nmech"),
        ("hp_shaft.pwr_in_real", "balance.lhs:hp_Nmech"),
        ("hp_shaft.pwr_out_real", "balance.rhs:hp_Nmech")],
        p ∈ (finishSetup cd (odCommonBlock (odFarBlock "percent_thrust"
          (addElements cd (initModel cd))))).connections := by
      intro p hp
      rw [finishSetup_connections, odCommonBlock_connections]
      exact List.mem_append.mpr (Or.inr hp)
    have hqq : ∀ q ∈ [("mult:FAR", "PC"), ("lhs:FAR", "Fn_max")],
        q ∈ (finishSetup cd (odCommonBlock (odFarBlock "percent_thrust"
          (addElements cd (initModel cd))))).promotes := by
      intro q hquf
      rw [finishSetup_promotes, odCommonBlock_promotes, odFarBlock_pct_promotes]
      exact List.mem_append.mpr (Or.inr hquf)
    exact ⟨_, rfl, hb, hc _ (by decide), hc _ (by decide), hqq _ (by decide),
      hqq _ (by decide), hcc _ (by decide), hcc _ (by decide),
      hcc _ (by decide), hcc _ (by decide), hcc _ (by decide),
      hcc _ (by decide), hcc _ (by decide), hcc _ (by decide),
      hcc _ (by decide), hcc _ (by decide)⟩

/-- Witness for C3 at the demo off-design declarations, one per throttle
mode. -/
theorem offdesign_balance_sets_witness :
    demoOdT4Cd.cycleInfo.design = false ∧
    demoOdT4Cd.cycleInfo.throttle_mode = "T4" ∧ odT4BalanceSpec demoOdT4Cd ∧
    demoOdPctCd.cycleInfo.throttle_mode = "percent_thrust" ∧
    odPctBalanceSpec demoOdPctCd :=
  ⟨rfl, rfl, (offdesign_balance_sets demoOdT4Cd rfl).1 rfl, rfl,
    (offdesign_balance_sets demoOdPctCd rfl).2.1 rfl⟩

end ADH

namespace ADH

/-- For one off-design cycle point: a W balance fed by the core-nozzle
throat area and a BPR balance fed by the bypass-nozzle throat area are
present, whose right-hand-side inputs `balance.rhs:W` / `balance.rhs:BPR`
are exactly the targets the multi-point des-od table binds. -/
def odAreaBalanceSpec (cd : CycleData) : Prop :=
  ∃ m, hbtfSetup cd = Except.ok m ∧
    "W" ∈ m.balances.map Balance.name ∧
    "BPR" ∈ m.balances.map Balance.name ∧
    ("core_nozz.Throat:stat:area", "balance.lhs:W") ∈ m.connections ∧
    ("byp_nozz.Throat:stat:area", "balance.lhs:BPR") ∈ m.connections

/-- C4: `MPhbtf.setup` binds the Design point's derived core-nozzle
throat area to every off-design point's `balance.rhs:W` and the Design
bypass-nozzle throat area to every off-design point's `balance.rhs:BPR`
(during multi-point setup, hence before any off-design point is solved),
and every off-design point indeed carries W and BPR balances whose
left-hand sides are its own nozzle throat areas. -/
theorem des_od_area_binding :
    mphbtfDesOdConnections =
      [("DESIGN.core_nozz.Throat:stat:area", "OD_full_pwr.balance.rhs:W"),
       ("DESIGN.core_nozz.Throat:stat:area", "OD_part_pwr.balance.rhs:W"),
       ("DESIGN.byp_nozz.Throat:stat:area", "OD_full_pwr.balance.rhs:BPR"),
       ("DESIGN.byp_nozz.Throat:stat:area", "OD_part_pwr.balance.rhs:BPR")] ∧
    (∀ od ∈ mphbtfOdPoints.map Prod.fst,
      ("DESIGN.core_nozz.Throat:stat:area", od ++ ".balance.rhs:W") ∈
        mphbtfDesOdConnections ∧
      ("DESIGN.byp_nozz.Throat:stat:area", od ++ ".balance.rhs:BPR") ∈
        mphbtfDesOdConnections) ∧
    (∀ cd : CycleData, cd.cycleInfo.design = false →
      cd.cycleInfo.throttle_mode ∈ throttleModeValues → odAreaBalanceSpec cd) := by
  refine ⟨by decide, by decide, ?_⟩
  intro cd hdes hthr
  have hbb : balanceBlock cd (addElements cd (initModel cd)) =
      odCommonBlock (odFarBlock cd.cycleInfo.throttle_mode
        (addElements cd (initModel cd))) := by
    simp [balanceBlock, hdes]
  unfold odAreaBalanceSpec hbtfSetup
  rw [if_pos hthr, hbb]
  refine ⟨_, rfl, ?_, ?_, ?_, ?_⟩
  · rw [finishSetup_balances, odCommonBlock_balances, List.map_append]
    exact List.mem_append.mpr (Or.inr (by decide))
  · rw [finishSetup_balances, odCommonBlock_balances, List.map_append]
    exact List.mem_append.mpr (Or.inr (by decide))
  · rw [finishSetup_connections, odCommonBlock_connections]
    exact List.mem_append.mpr (Or.inr (by decide))
  · rw [finishSetup_connections, odCommonBlock_connections]
    exact List.mem_append.mpr (Or.inr (by decide))

/-- Witness for C4 at the demo off-design T4 declaration. -/
theorem des_od_area_binding_witness :
    demoOdT4Cd.cycleInfo.design = false ∧
    demoOdT4Cd.cycleInfo.throttle_mode ∈ throttleModeValues ∧
    odAreaBalanceSpec demoOdT4Cd :=
  ⟨rfl, by decide, des_od_area_binding.2.2 demoOdT4Cd rfl (by decide)⟩

end ADH

namespace ADH

theorem balanceBlock_thermo (cd : CycleData) (m : Model) :
    (balanceBlock cd m).thermoMethod = m.thermoMethod ∧
    (balanceBlock cd m).thermoData = m.thermoData := by
  unfold balanceBlock
  split
  · exact designBlock_thermo m
  · constructor
    · rw [(odCommonBlock_thermo _).1, (odFarBlock_thermo _ _).1]
    · rw [(odCommonBlock_thermo _).2, (odFarBlock_thermo _ _).2]

/-- The thermo-package outcome of one cycle setup: exactly the string
TABULAR selects the tabular package, every other value silently selects
CEA/janaf; setup succeeds either way. -/
def thermoSpec (cd : CycleData) : Prop :=
  ∃ m, hbtfSetup cd = Except.ok m ∧
    (cd.cycleInfo.thermo_method = "TABULAR" →
      m.thermoMethod = "TABULAR" ∧ m.thermoData = "AIR_JETA_TAB_SPEC") ∧
    (cd.cycleInfo.thermo_method ≠ "TABULAR" →
      m.thermoMethod = "CEA" ∧ m.thermoData = "species_data.janaf")

/-- C10: cycle setup performs no validation of the thermodynamic method
string: exactly TABULAR selects the tabular package and any other value,
recognized or not, silently configures CEA without an error. -/
theorem thermo_method_no_validation (cd : CycleData)
    (hthr : cd.cycleInfo.throttle_mode ∈ throttleModeValues) :
    thermoSpec cd := by
  unfold thermoSpec hbtfSetup
  rw [if_pos hthr]
  have h1 : (finishSetup cd (balanceBlock cd (addElements cd
      (initModel cd)))).thermoMethod =
      (thermoSelect cd.cycleInfo.thermo_method).1 := by
    rw [(finishSetup_thermo _ _).1, (balanceBlock_thermo _ _).1,
      (addElements_thermo _ _).1]
    rfl
  have h2 : (finishSetup cd (balanceBlock cd (addElements cd
      (initModel cd)))).thermoData =
      (thermoSelect cd.cycleInfo.thermo_method).2 := by
    rw [(finishSetup_thermo _ _).2, (balanceBlock_thermo _ _).2,
      (addElements_thermo _ _).2]
    rfl
  refine ⟨_, rfl, ?_, ?_⟩
  · intro ht
    rw [h1, h2]
    simp [thermoSelect, ht]
  · intro hne
    rw [h1, h2]
    simp [thermoSelect, hne]

/-- The demo data with an unrecognized thermodynamic method string. -/
def bogusThermoCd : CycleData :=
  { demoCd with cycleInfo := { demoInfo with thermo_method := "NOT_A_METHOD" } }

/-- Witness for C10 at an input whose thermo method is not a recognized
value at all: setup still succeeds and configures CEA. -/
theorem thermo_method_no_validation_witness :
    bogusThermoCd.cycleInfo.throttle_mode ∈ throttleModeValues ∧
    bogusThermoCd.cycleInfo.thermo_method ≠ "TABULAR" ∧
    thermoSpec bogusThermoCd :=
  ⟨by decide, by decide, thermo_method_no_validation bogusThermoCd (by decide)⟩

/-- The demo data with the throttle mode the pydantic validator accepts
but the builder rejects. -/
def pctThrottleCd : CycleData :=
  { demoCd with cycleInfo := { demoInfo with throttle_mode := "percent_throttle" } }

/-- C7: the two throttle-mode validation sites disagree. The pydantic
validator of `PropulsionCycle` accepts exactly {T4, percent_throttle},
rejecting the value percent_thrust that the spec names, that
`HBTFBuilder.initialize` declares as allowed, and that the builder's
off-design branch and `MPhbtf` actually use; conversely the value
percent_throttle it accepts is rejected by the builder's option check. -/
theorem throttle_validator_mismatch :
    validate_throttle_mode "percent_thrust" =
      Except.error "Throttle mode must be one of ['T4', 'percent_throttle']" ∧
    "percent_thrust" ∈ throttleModeValues ∧
    validate_throttle_mode "percent_throttle" = Except.ok "percent_throttle" ∧
    "percent_throttle" ∉ throttleModeValues ∧
    hbtfSetup pctThrottleCd = Except.error
      "Value (percent_throttle) is not one of ['T4', 'percent_thrust']" ∧
    validate_throttle_mode "T4" = Except.ok "T4" := by
  exact ⟨rfl, by decide, rfl, by decide, rfl, rfl⟩

end ADH

namespace ADH

/-- C5 (code-bug evaluation): the demo declaration pairs fan, lpc, lpt
with the LP shaft and hpc, hpt with the HP shaft, but `setup` hands only
`cycleData["comp"]` to `connect_compturb_to_shafts`, so the declared
turbine pairs produce no torque connection at all: the built model has
exactly the three compressor torque edges and no connection sourced at
`lpt.trq` or `hpt.trq`. -/
theorem turbine_shaft_pairs_dropped :
    "lpt,lp_shaft" ∈ demoCd.cycleInfo.global_connections ∧
    "hpt,hp_shaft" ∈ demoCd.cycleInfo.global_connections ∧
    connect_compturb_fn demoCd.comp demoCd.shafts
        demoCd.cycleInfo.global_connections =
      [("fan.trq", "lp_shaft.trq_0"), ("lpc.trq", "lp_shaft.trq_1"),
       ("hpc.trq", "hp_shaft.trq_0")] ∧
    (∃ m, hbtfSetup demoCd = Except.ok m ∧
      ((m.connections.map Prod.fst).all
        (fun s => !(s = "lpt.trq") && !(s = "hpt.trq"))) = true) := by
  refine ⟨by decide, by decide, by decide, _, rfl, by decide⟩

/-- The demo data with unrecognized performance-map tokens on both the
compressor and the turbine. -/
def bogusMapCd : CycleData :=
  { demoCd with
    comp := [{ name := "mystery_c", map_data := "BogusMap", bleed_names := [],
               map_extrap := true }],
    turb := [{ name := "mystery_t", map_data := "BogusTMap", bleed_names := [],
               map_extrap := true }] }

/-- C6 counterexample: an element with an unrecognized map token does
not fail the build with any error; it is silently given the
high-pressure default map and the HP spool-speed promotion. -/
theorem unknown_map_token_no_error :
    compressorMapSel "BogusMap" = ("HPCMap", "HP_Nmech") ∧
    turbineMapSel "BogusTMap" = ("HPTMap", "HP_Nmech") ∧
    (∃ m, hbtfSetup bogusMapCd = Except.ok m ∧
      ("mystery_c", "Compressor(HPCMap)") ∈ m.subsystems ∧
      ("mystery_c.Nmech", "HP_Nmech") ∈ m.promotes ∧
      ("mystery_t", "Turbine(HPTMap)") ∈ m.subsystems ∧
      ("mystery_t.Nmech", "HP_Nmech") ∈ m.promotes) := by
  refine ⟨rfl, rfl, _, rfl, by decide, by decide, by decide, by decide⟩

/-- C6 amended: recognized tokens resolve FanMap and LPCMap (and LPTMap)
to the LP spool and HPCMap (and HPTMap) to the HP spool; every
unrecognized token silently defaults to the HP group instead of failing,
and the add helpers promote each element's Nmech accordingly. -/
theorem map_token_group_defaults (s : String) :
    (s ∉ ["FanMap", "LPCMap"] → compressorMapSel s = ("HPCMap", "HP_Nmech")) ∧
    compressorMapSel "FanMap" = ("FanMap", "LP_Nmech") ∧
    compressorMapSel "LPCMap" = ("LPCMap", "LP_Nmech") ∧
    (s ≠ "LPTMap" → turbineMapSel s = ("HPTMap", "HP_Nmech")) ∧
    turbineMapSel "LPTMap" = ("LPTMap", "LP_Nmech") ∧
    (∀ (m : Model) (comps : List CompData),
      (add_compressors m comps).promotes = m.promotes ++
        comps.map (fun c => (c.name ++ ".Nmech", (compressorMapSel c.map_data).2))) ∧
    (∀ (m : Model) (turbs : List TurbData),
      (add_turbines m turbs).promotes = m.promotes ++
        turbs.map (fun t => (t.name ++ ".Nmech", (turbineMapSel t.map_data).2))) := by
  refine ⟨?_, rfl, rfl, ?_, rfl, fun m comps => rfl, fun m turbs => rfl⟩
  · intro hns
    have h1 : ¬(s = "FanMap") := by intro hh; exact hns (by rw [hh]; decide)
    have h2 : ¬(s = "LPCMap") := by intro hh; exact hns (by rw [hh]; decide)
    unfold compressorMapSel
    rw [if_neg h1, if_neg h2]
    split <;> rfl
  · intro hns
    unfold turbineMapSel
    rw [if_neg hns]
    split <;> rfl

/-- Witness for C6 (amended) at a concrete unrecognized token. -/
theorem map_token_group_defaults_witness :
    ("SomeBogus" ∉ ["FanMap", "LPCMap"] ∧
      compressorMapSel "SomeBogus" = ("HPCMap", "HP_Nmech")) ∧
    ("SomeBogus" ≠ "LPTMap" ∧
      turbineMapSel "SomeBogus" = ("HPTMap", "HP_Nmech")) :=
  ⟨⟨by decide, (map_token_group_defaults "SomeBogus").1 (by decide)⟩,
   ⟨by decide, (map_token_group_defaults "SomeBogus").2.2.2.1 (by decide)⟩⟩

end ADH

namespace ADH

/-- A declaration in which the bleed name cool1 has exactly one owner. -/
def singleOwnerCd : CycleData :=
  { demoCd with
    comp := [{ name := "hpc", map_data := "HPCMap", bleed_names := ["cool1"],
               map_extrap := true }],
    turb := [], bleeds := [] }

/-- A declaration in which the bleed name cool1 has three owners: a
compressor, a Bleed element and a turbine. -/
def threeOwnerCd : CycleData :=
  { demoCd with
    comp := [{ name := "hpc", map_data := "HPCMap", bleed_names := ["cool1"],
               map_extrap := true }],
    bleeds := [{ name := "bld3", bleed_names := ["cool1"] }],
    turb := [{ name := "lpt", map_data := "LPTMap", bleed_names := ["cool1"],
               map_extrap := true }] }

/-- C1 counterexample: a bleed name with one owner is silently skipped
and a bleed name with three owners is silently connected between the
first two owners; in both cases the build completes normally — no
AmbiguousBleedError exists anywhere on this path. -/
theorem bleed_ambiguity_not_raised :
    (ownersOf singleOwnerCd "cool1").length = 1 ∧
    connect_bleeds_fn singleOwnerCd = [] ∧
    (∃ m, hbtfSetup singleOwnerCd = Except.ok m ∧ m.bleedEdges = []) ∧
    (ownersOf threeOwnerCd "cool1").length = 3 ∧
    connect_bleeds_fn threeOwnerCd = [("hpc.cool1", "bld3.cool1")] ∧
    (∃ m, hbtfSetup threeOwnerCd = Except.ok m ∧
      m.bleedEdges = [("hpc.cool1", "bld3.cool1")]) := by
  refine ⟨by decide, by decide, ⟨_, rfl, by decide⟩, by decide, by decide,
    ⟨_, rfl, by decide⟩⟩

/-- C1 amended: bleed resolution never fails. A name with at most one
owner yields no connection and no error, a name with two or more owners
is connected from its first to its second owner in dict order (the
compressors-then-Bleeds-then-turbines insertion order), ignoring all
further owners, and every such edge lands in the resolved edge set. -/
theorem bleed_resolution_silent_policy (cd : CycleData) (bn : String) :
    ((ownersOf cd bn).length ≤ 1 → bleedEdgeFor (bleedPairs cd) bn = none) ∧
    (∀ a b rest, ownersOf cd bn = a :: b :: rest →
      bleedEdgeFor (bleedPairs cd) bn = some (a ++ "." ++ bn, b ++ "." ++ bn)) ∧
    (bn ∈ bleedNamesList cd → ∀ e, bleedEdgeFor (bleedPairs cd) bn = some e →
      e ∈ connect_bleeds_fn cd) := by
  refine ⟨?_, ?_, ?_⟩
  · intro hlen
    rcases hOwn : ownersOf cd bn with _ | ⟨a, rest⟩
    · rw [bleedEdgeFor_owners, hOwn]
    · rcases rest with _ | ⟨b, t⟩
      · rw [bleedEdgeFor_owners, hOwn]
      · rw [hOwn] at hlen
        simp at hlen
  · intro a b rest hab
    rw [bleedEdgeFor_owners, hab]
  · intro hmem e he
    unfold connect_bleeds_fn connectBleedsOrdered
    exact List.mem_filterMap.mpr ⟨bn, hmem, he⟩

/-- Witness for C1 (amended) at the three-owner declaration. -/
theorem bleed_resolution_silent_policy_witness :
    ownersOf threeOwnerCd "cool1" = ["hpc", "bld3", "lpt"] ∧
    "cool1" ∈ bleedNamesList threeOwnerCd ∧
    bleedEdgeFor (bleedPairs threeOwnerCd) "cool1" =
      some ("hpc.cool1", "bld3.cool1") ∧
    ("hpc.cool1", "bld3.cool1") ∈ connect_bleeds_fn threeOwnerCd :=
  ⟨by decide, by decide,
   (bleed_resolution_silent_policy threeOwnerCd "cool1").2.1 "hpc" "bld3"
     ["lpt"] (by decide),
   (bleed_resolution_silent_policy threeOwnerCd "cool1").2.2 (by decide) _
     ((bleed_resolution_silent_policy threeOwnerCd "cool1").2.1 "hpc" "bld3"
       ["lpt"] (by decide))⟩

/-- The full output of connection resolution for one declarative input:
flow edges, bleed edges, shaft torque edges. -/
def resolveConnections (cd : CycleData) :
    (List (String × String)) × (List (String × String)) ×
      (List (String × String)) :=
  (connect_flow_fn cd.cycleInfo.flow_connections, connect_bleeds_fn cd,
   connect_compturb_fn cd.comp cd.shafts cd.cycleInfo.global_connections)

/-- C8: connection resolution is a pure function of the declarative
input — rerunning it on identical input yields identical flow, bleed and
shaft edge sets — and the bleed edge set does not depend on the
enumeration order of the bleed-name set (the one genuinely arbitrary
order in the source, the Python hash-set iteration): permuting the name
order only permutes the edge list. -/
theorem resolution_deterministic (cd : CycleData) :
    resolveConnections cd = resolveConnections cd ∧
    (∀ ns₁ ns₂ : List String, ns₁.Perm ns₂ →
      (connectBleedsOrdered cd ns₁).Perm (connectBleedsOrdered cd ns₂)) :=
  ⟨rfl, fun _ _ h => h.filterMap _⟩

/-- Witness for C8 at the demo declaration with a transposed name order. -/
theorem resolution_deterministic_witness :
    resolveConnections demoCd = resolveConnections demoCd ∧
    (connectBleedsOrdered demoCd ["cool1", "cool3"]).Perm
      (connectBleedsOrdered demoCd ["cool3", "cool1"]) :=
  ⟨(resolution_deterministic demoCd).1,
   (resolution_deterministic demoCd).2 _ _ (List.Perm.swap "cool3" "cool1" [])⟩

/-- C9: under the data-model invariant of unique element names, the
owner list of every bleed name is the declaring compressors, then the
declaring Bleed elements, then the declaring turbines, each group in
declaration order; the connection runs from the first to the second
entry of that list, ignoring the rest; and when a Bleed element shares a
name with a turbine and no compressor declares it, the Bleed element is
always the source of the connection. -/
theorem bleed_kind_order_roles (cd : CycleData)
    (h : distinctElementNames cd) (bn : String) :
    ownersOf cd bn = compDecl cd bn ++ bleedElemDecl cd bn ++ turbDecl cd bn ∧
    (∀ a b rest,
      compDecl cd bn ++ bleedElemDecl cd bn ++ turbDecl cd bn = a :: b :: rest →
      bleedEdgeFor (bleedPairs cd) bn = some (a ++ "." ++ bn, b ++ "." ++ bn)) ∧
    (compDecl cd bn = [] → ∀ s ss t ts, bleedElemDecl cd bn = s :: ss →
      turbDecl cd bn = t :: ts →
      ∃ c, bleedEdgeFor (bleedPairs cd) bn = some (s ++ "." ++ bn, c ++ "." ++ bn)) := by
  have hsplit := ownersOf_split cd bn h
  refine ⟨hsplit, ?_, ?_⟩
  · intro a b rest hab
    rw [bleedEdgeFor_owners, hsplit, hab]
  · intro hc s ss t ts hs ht
    rw [bleedEdgeFor_owners, hsplit, hc, hs, ht]
    cases ss with
    | nil => exact ⟨t, rfl⟩
    | cons s2 ss2 => exact ⟨s2, rfl⟩

/-- A declaration in which a Bleed element and a turbine share the bleed
name sh and no compressor declares it. -/
def bleedTurbCd : CycleData :=
  { demoCd with
    comp := [],
    bleeds := [{ name := "bleedelem", bleed_names := ["sh"] }],
    turb := [{ name := "turb1", map_data := "LPTMap", bleed_names := ["sh"],
               map_extrap := true }] }

/-- Witness for C9: with unique names, the Bleed element sharing the
name sh with a turbine becomes the source of the connection. -/
theorem bleed_kind_order_roles_witness :
    distinctElementNames bleedTurbCd ∧
    ownersOf bleedTurbCd "sh" = ["bleedelem", "turb1"] ∧
    bleedEdgeFor (bleedPairs bleedTurbCd) "sh" =
      some ("bleedelem.sh", "turb1.sh") :=
  ⟨by decide,
   ((bleed_kind_order_roles bleedTurbCd (by decide) "sh").1).trans (by decide),
   (bleed_kind_order_roles bleedTurbCd (by decide) "sh").2.1 "bleedelem"
     "turb1" [] (by decide)⟩

end ADH
